import Mathlib

/-!
Shallow embedding of the connection I/O pump, shutdown signalling, message
classifier and persistence layer of the sv2-apps repository
(src/roles/pool/src/lib/utils.rs and src/stratum-apps/src/persistence/).
-/

namespace Sv2Apps

/-! ## Message classifier (src/roles/pool/src/lib/utils.rs, lines 252-340)

The byte values of the MESSAGE_TYPE constants come from the stratum-core
protocol crates (common_messages_sv2, mining_sv2, job_declaration_sv2,
template_distribution_sv2), which are external dependencies of this
repository; they are the standard Stratum V2 wire values. Each literal below
is annotated with the constant name used in the source. -/

/-- Source: is_common_message. Matches the five common-message type bytes. -/
def is_common_message (message_type : Nat) : Bool :=
  message_type == 0x00      -- MESSAGE_TYPE_SETUP_CONNECTION
  || message_type == 0x01   -- MESSAGE_TYPE_SETUP_CONNECTION_SUCCESS
  || message_type == 0x02   -- MESSAGE_TYPE_SETUP_CONNECTION_ERROR
  || message_type == 0x03   -- MESSAGE_TYPE_CHANNEL_ENDPOINT_CHANGED
  || message_type == 0x25   -- MESSAGE_TYPE_RECONNECT

/-- Source: is_mining_message. Matches the mining-protocol type bytes,
including the reserved byte 0x1e which appears as a literal in the source. -/
def is_mining_message (message_type : Nat) : Bool :=
  message_type == 0x10      -- MESSAGE_TYPE_OPEN_STANDARD_MINING_CHANNEL
  || message_type == 0x11   -- MESSAGE_TYPE_OPEN_STANDARD_MINING_CHANNEL_SUCCESS
  || message_type == 0x12   -- MESSAGE_TYPE_OPEN_MINING_CHANNEL_ERROR
  || message_type == 0x13   -- MESSAGE_TYPE_OPEN_EXTENDED_MINING_CHANNEL
  || message_type == 0x14   -- MESSAGE_TYPE_OPEN_EXTENDED_MINING_CHANNEL_SUCCESS
  || message_type == 0x15   -- MESSAGE_TYPE_NEW_MINING_JOB
  || message_type == 0x16   -- MESSAGE_TYPE_UPDATE_CHANNEL
  || message_type == 0x17   -- MESSAGE_TYPE_UPDATE_CHANNEL_ERROR
  || message_type == 0x18   -- MESSAGE_TYPE_CLOSE_CHANNEL
  || message_type == 0x19   -- MESSAGE_TYPE_SET_EXTRANONCE_PREFIX
  || message_type == 0x1a   -- MESSAGE_TYPE_SUBMIT_SHARES_STANDARD
  || message_type == 0x1b   -- MESSAGE_TYPE_SUBMIT_SHARES_EXTENDED
  || message_type == 0x1c   -- MESSAGE_TYPE_SUBMIT_SHARES_SUCCESS
  || message_type == 0x1d   -- MESSAGE_TYPE_SUBMIT_SHARES_ERROR
  || message_type == 0x1e   -- reserved (literal 0x1e in the source)
  || message_type == 0x1f   -- MESSAGE_TYPE_NEW_EXTENDED_MINING_JOB
  || message_type == 0x20   -- MESSAGE_TYPE_MINING_SET_NEW_PREV_HASH
  || message_type == 0x21   -- MESSAGE_TYPE_SET_TARGET
  || message_type == 0x22   -- MESSAGE_TYPE_SET_CUSTOM_MINING_JOB
  || message_type == 0x23   -- MESSAGE_TYPE_SET_CUSTOM_MINING_JOB_SUCCESS
  || message_type == 0x24   -- MESSAGE_TYPE_SET_CUSTOM_MINING_JOB_ERROR
  || message_type == 0x26   -- MESSAGE_TYPE_SET_GROUP_CHANNEL

/-- Source: is_job_declaration_message. -/
def is_job_declaration_message (message_type : Nat) : Bool :=
  message_type == 0x50      -- MESSAGE_TYPE_ALLOCATE_MINING_JOB_TOKEN
  || message_type == 0x51   -- MESSAGE_TYPE_ALLOCATE_MINING_JOB_TOKEN_SUCCESS
  || message_type == 0x55   -- MESSAGE_TYPE_PROVIDE_MISSING_TRANSACTIONS
  || message_type == 0x56   -- MESSAGE_TYPE_PROVIDE_MISSING_TRANSACTIONS_SUCCESS
  || message_type == 0x57   -- MESSAGE_TYPE_DECLARE_MINING_JOB
  || message_type == 0x58   -- MESSAGE_TYPE_DECLARE_MINING_JOB_SUCCESS
  || message_type == 0x59   -- MESSAGE_TYPE_DECLARE_MINING_JOB_ERROR
  || message_type == 0x60   -- MESSAGE_TYPE_PUSH_SOLUTION

/-- Source: is_template_distribution_message. -/
def is_template_distribution_message (message_type : Nat) : Bool :=
  message_type == 0x70      -- MESSAGE_TYPE_COINBASE_OUTPUT_CONSTRAINTS
  || message_type == 0x71   -- MESSAGE_TYPE_NEW_TEMPLATE
  || message_type == 0x72   -- MESSAGE_TYPE_SET_NEW_PREV_HASH
  || message_type == 0x73   -- MESSAGE_TYPE_REQUEST_TRANSACTION_DATA
  || message_type == 0x74   -- MESSAGE_TYPE_REQUEST_TRANSACTION_DATA_SUCCESS
  || message_type == 0x75   -- MESSAGE_TYPE_REQUEST_TRANSACTION_DATA_ERROR
  || message_type == 0x76   -- MESSAGE_TYPE_SUBMIT_SOLUTION

/-- Source: enum MessageType in src/roles/pool/src/lib/utils.rs. -/
inductive MessageType
  | Common
  | Mining
  | JobDeclaration
  | TemplateDistribution
  | Unknown
  deriving DecidableEq, Repr

/-- Source: protocol_message_type. The if-chain mirrors the source exactly. -/
def protocol_message_type (message_type : Nat) : MessageType :=
  if is_common_message message_type then
    MessageType.Common
  else if is_mining_message message_type then
    MessageType.Mining
  else if is_job_declaration_message message_type then
    MessageType.JobDeclaration
  else if is_template_distribution_message message_type then
    MessageType.TemplateDistribution
  else
    MessageType.Unknown

/-! ## Shutdown messages and connection identity

ShutdownMessage is the enum of src/roles/pool/src/lib/utils.rs lines 59-67. -/

/-- Source: enum ShutdownMessage. The usize id is modelled as Nat. -/
inductive ShutdownMessage
  | ShutdownAll
  | DownstreamShutdownAll
  | DownstreamShutdown (id : Nat)
  deriving DecidableEq, Repr

/-- Modelled from the spec: the ConnectionIdentity enum (StatusType) is declared
in the pool role's status module, which is not among the given sources; only its
uses in spawn_io_tasks are. The spec describes it as a closed tagged value with
a Downstream(usize) variant and a TemplateReceiver variant, assigned once at
pump construction, used only for shutdown-scope filtering. -/
inductive StatusType
  | TemplateReceiver
  | Downstream (id : Nat)
  deriving DecidableEq, Repr

/-! ## Connection I/O pump (spawn_io_tasks, utils.rs lines 119-250)

The two loops are embedded as step functions on explicit state. Frame payloads
are abstracted as Nat; one loop iteration consumes one scheduler input naming
which select branch fired and with what result. Channel close is a Boolean flag;
forwarding into a queue appends to a list, which also records delivery order. -/

/-- Source: framing_sv2 Frame — either a handshake frame (illegal after setup)
or an Sv2 protocol frame; the payload is abstracted as a Nat. -/
inductive Frame
  | HandShake
  | Sv2 (payload : Nat)
  deriving DecidableEq, Repr

/-- State of the reader task of spawn_io_tasks: whether the inbound channel
(sender inbound_tx) is closed, the frames forwarded into the inbound queue in
order, whether the outbound channel was closed through the secondary handle
outbound_rx_clone, and whether the loop has exited. -/
structure ReaderState where
  inboundClosed : Bool
  inbound : List Nat
  outboundClosed : Bool
  exited : Bool
  deriving DecidableEq, Repr

/-- One scheduler input for the reader loop's select: either the shutdown
subscription yields (none models a broadcast recv error, matched by the
catch-all arm), or the transport read completes (none models a read error). -/
inductive ReaderInput
  | shutdown (msg : Option ShutdownMessage)
  | transport (res : Option Frame)
  deriving DecidableEq, Repr

/-- The epilogue after the reader loop breaks (utils.rs lines 185-188):
inbound_tx.close(), outbound_rx_clone.close(), drop both handles. -/
def readerExit (s : ReaderState) : ReaderState :=
  { s with inboundClosed := true, outboundClosed := true, exited := true }

/-- One iteration of the reader loop (utils.rs lines 138-184) followed, when the
iteration breaks, by the epilogue. An exited reader no longer steps.
Send on the inbound channel fails exactly when the channel is closed;
a failed send closes the channel and breaks. -/
def readerStep (status_type : StatusType) (s : ReaderState) (i : ReaderInput) :
    ReaderState :=
  if s.exited then s else
  match i with
  | ReaderInput.shutdown msg =>
    match msg with
    | some ShutdownMessage.ShutdownAll =>
        readerExit { s with inboundClosed := true }
    | some (ShutdownMessage.DownstreamShutdown down_id) =>
        match status_type with
        | StatusType.Downstream id =>
          if id = down_id then
            if StatusType.Downstream id ≠ StatusType.TemplateReceiver then
              readerExit { s with inboundClosed := true }
            else s
          else s
        | _ => s
    | _ => s
  | ReaderInput.transport res =>
    match res with
    | some Frame.HandShake => readerExit s
    | some (Frame.Sv2 f) =>
        if s.inboundClosed then readerExit { s with inboundClosed := true }
        else { s with inbound := s.inbound ++ [f] }
    | none => readerExit { s with inboundClosed := true }

/-- The reader task: iterate readerStep over a list of scheduler inputs. -/
def readerRun (status_type : StatusType) (s : ReaderState) :
    List ReaderInput → ReaderState
  | [] => s
  | i :: rest => readerRun status_type (readerStep status_type s i) rest

/-- The reader task's state right after spawn: both channels open, nothing
forwarded, loop running. -/
def readerInit : ReaderState :=
  { inboundClosed := false, inbound := [], outboundClosed := false,
    exited := false }

/-- State of the writer task of spawn_io_tasks: whether the outbound channel
(receiver outbound_rx) is closed, the frames still buffered in the outbound
channel, the frames written to the transport in order, whether the inbound
channel was closed through the secondary handle inbound_tx_clone, and whether
the loop has exited. -/
structure WriterState where
  outboundClosed : Bool
  outboundQueue : List Nat
  written : List Nat
  inboundClosed : Bool
  exited : Bool
  deriving DecidableEq, Repr

/-- One scheduler input for the writer loop's select: either the shutdown
subscription yields, or the outbound-channel recv completes; writeOk tells
whether the subsequent transport write succeeds. -/
inductive WriterInput
  | shutdown (msg : Option ShutdownMessage)
  | recv (writeOk : Bool)
  deriving DecidableEq, Repr

/-- The epilogue after the writer loop breaks (utils.rs lines 240-243):
outbound_rx.close(), inbound_tx_clone.close(), drop both handles. -/
def writerExit (s : WriterState) : WriterState :=
  { s with outboundClosed := true, inboundClosed := true, exited := true }

/-- One iteration of the writer loop (utils.rs lines 202-239) followed, when the
iteration breaks, by the epilogue. Recv on the outbound channel yields buffered
frames even after close and errors only when the channel is empty and closed;
recv on an empty open channel pends, modelled as an unchanged state. -/
def writerStep (status_type : StatusType) (s : WriterState) (i : WriterInput) :
    WriterState :=
  if s.exited then s else
  match i with
  | WriterInput.shutdown msg =>
    match msg with
    | some ShutdownMessage.ShutdownAll =>
        writerExit { s with outboundClosed := true }
    | some (ShutdownMessage.DownstreamShutdown down_id) =>
        match status_type with
        | StatusType.Downstream id =>
          if id = down_id then
            if StatusType.Downstream id ≠ StatusType.TemplateReceiver then
              writerExit { s with outboundClosed := true }
            else s
          else s
        | _ => s
    | _ => s
  | WriterInput.recv writeOk =>
    match s.outboundQueue with
    | f :: rest =>
        if writeOk then
          { s with outboundQueue := rest, written := s.written ++ [f] }
        else writerExit { s with outboundClosed := true, outboundQueue := rest }
    | [] =>
        if s.outboundClosed then writerExit s
        else s

/-- The writer task: iterate writerStep over a list of scheduler inputs. -/
def writerRun (status_type : StatusType) (s : WriterState) :
    List WriterInput → WriterState
  | [] => s
  | i :: rest => writerRun status_type (writerStep status_type s i) rest

/-- The writer task's state right after spawn, with q frames already buffered in
the outbound channel: both channels open, nothing written, loop running. -/
def writerInit (q : List Nat) : WriterState :=
  { outboundClosed := false, outboundQueue := q, written := [],
    inboundClosed := false, exited := false }

/-- Which shutdown messages a loop with the given identity acts upon:
ShutdownAll always, DownstreamShutdown(id) only for identity Downstream(id). -/
def appliesTo (status_type : StatusType) : ShutdownMessage → Bool
  | ShutdownMessage.ShutdownAll => true
  | ShutdownMessage.DownstreamShutdownAll => false
  | ShutdownMessage.DownstreamShutdown id =>
      decide (status_type = StatusType.Downstream id)

/-! ## Persistence layer (src/stratum-apps/src/persistence/)

The file backend sends commands into a bounded async channel whose worker
thread does the writes; the caller side only ever uses try_send. The channel is
modelled by its capacity, its buffered commands and a closed flag; try_send
fails exactly when the channel is closed or full (async-channel semantics). -/

/-- Source: entity types that can be persisted (persistence/mod.rs). -/
inductive EntityType
  | Share
  deriving DecidableEq, Repr

/-- Source: PersistenceEvent (persistence/mod.rs); the ShareEvent payload is
abstracted as a Nat. -/
inductive PersistenceEvent
  | Share (data : Nat)
  deriving DecidableEq, Repr

/-- Source: the FileCommand enum of persistence/file.rs. Write carries the
Debug-formatted event; the formatting is abstracted by keeping the event. -/
inductive FileCommand
  | Write (text : PersistenceEvent)
  | Flush
  | Shutdown
  deriving DecidableEq, Repr

/-- The bounded async channel held by FileBackend (sender side view). -/
structure FileChan where
  cap : Nat
  buf : List FileCommand
  closed : Bool
  deriving DecidableEq, Repr

/-- try_send on a bounded async channel: fails (returning the unchanged
channel) when the channel is closed or full, otherwise enqueues. The Bool
reports success. -/
def FileChan.trySend (ch : FileChan) (cmd : FileCommand) : FileChan × Bool :=
  if ch.closed || ch.cap ≤ ch.buf.length then (ch, false)
  else ({ ch with buf := ch.buf ++ [cmd] }, true)

/-- Source: struct FileBackend { sender } of persistence/file.rs. -/
structure FileBackend where
  sender : FileChan
  deriving DecidableEq, Repr

/-- Source: FileBackend::persist_event. Formats the event, try_sends the Write
command, and on failure only logs an error; it always returns to the caller.
The result is the updated backend and whether an error was logged. -/
def FileBackend.persist_event (b : FileBackend) (event : PersistenceEvent) :
    FileBackend × Bool :=
  let r := b.sender.trySend (FileCommand.Write event)
  ({ sender := r.1 }, !r.2)

/-- Source: FileBackend::flush — try_send of the Flush command, log on
failure. -/
def FileBackend.flush (b : FileBackend) : FileBackend × Bool :=
  let r := b.sender.trySend FileCommand.Flush
  ({ sender := r.1 }, !r.2)

/-- Source: FileBackend::shutdown — try_send of the Shutdown command, log on
failure. -/
def FileBackend.shutdown (b : FileBackend) : FileBackend × Bool :=
  let r := b.sender.trySend FileCommand.Shutdown
  ({ sender := r.1 }, !r.2)

/-- Source: the Backend enum of persistence/mod.rs (the commented-out Sqlite
variant is omitted, as in the compiled source). NoOp carries no state. -/
inductive Backend
  | File (b : FileBackend)
  | NoOp
  deriving DecidableEq, Repr

/-- Source: struct Persistence of persistence/mod.rs. The HashSet of enabled
entity types is modelled as a list queried by contains. -/
structure Persistence where
  backend : Backend
  enabled_entities : List EntityType
  deriving DecidableEq, Repr

/-- Source: Persistence::noop — NoOp backend and an empty enabled set. -/
def Persistence.noop : Persistence :=
  { backend := Backend.NoOp, enabled_entities := [] }

/-- Source: Persistence::persist. Computes the event's entity type, and only
when it is contained in enabled_entities dispatches to the backend's
persist_event. The second component records the events passed to the backend's
persist_event during the call (the observable of backend invocation). -/
def Persistence.persist (p : Persistence) (event : PersistenceEvent) :
    Backend × List PersistenceEvent :=
  let entity_type := match event with
    | PersistenceEvent.Share _ => EntityType.Share
  if p.enabled_entities.contains entity_type then
    match p.backend with
    | Backend.File b => (Backend.File (b.persist_event event).1, [event])
    | Backend.NoOp => (Backend.NoOp, [event])
  else (p.backend, [])

end Sv2Apps

namespace Sv2Apps

/-- C6: protocol_message_type is total on all 256 byte values; it tests the four
membership predicates in the order Common, Mining, JobDeclaration,
TemplateDistribution, returns the category of the first predicate that holds,
and returns Unknown when none of the four holds. -/
theorem protocol_message_type_first_match (t : Fin 256) :
    (is_common_message t.val = true →
      protocol_message_type t.val = MessageType.Common) ∧
    (is_common_message t.val = false → is_mining_message t.val = true →
      protocol_message_type t.val = MessageType.Mining) ∧
    (is_common_message t.val = false → is_mining_message t.val = false →
      is_job_declaration_message t.val = true →
      protocol_message_type t.val = MessageType.JobDeclaration) ∧
    (is_common_message t.val = false → is_mining_message t.val = false →
      is_job_declaration_message t.val = false →
      is_template_distribution_message t.val = true →
      protocol_message_type t.val = MessageType.TemplateDistribution) ∧
    (is_common_message t.val = false → is_mining_message t.val = false →
      is_job_declaration_message t.val = false →
      is_template_distribution_message t.val = false →
      protocol_message_type t.val = MessageType.Unknown) := by
  refine ⟨?_, ?_, ?_, ?_, ?_⟩ <;>
    · intros
      simp [protocol_message_type, *]

/-- Witness for C6 at a concrete byte: 0x15 is a mining message and not a
common one, so the classifier returns Mining. -/
theorem protocol_message_type_first_match_witness :
    is_common_message 0x15 = false ∧ is_mining_message 0x15 = true ∧
    protocol_message_type 0x15 = MessageType.Mining :=
  ⟨by decide, by decide,
   (protocol_message_type_first_match ⟨0x15, by decide⟩).2.1 (by decide)
     (by decide)⟩

set_option maxRecDepth 4096 in
/-- C7: the four message-type sets are pairwise disjoint: for every byte value,
at most one of the four membership predicates returns true. -/
theorem message_type_sets_disjoint (t : Fin 256) :
    (¬ (is_common_message t.val = true ∧ is_mining_message t.val = true)) ∧
    (¬ (is_common_message t.val = true ∧ is_job_declaration_message t.val = true)) ∧
    (¬ (is_common_message t.val = true ∧ is_template_distribution_message t.val = true)) ∧
    (¬ (is_mining_message t.val = true ∧ is_job_declaration_message t.val = true)) ∧
    (¬ (is_mining_message t.val = true ∧ is_template_distribution_message t.val = true)) ∧
    (¬ (is_job_declaration_message t.val = true ∧ is_template_distribution_message t.val = true)) := by
  revert t
  decide

/-! Helper lemmas about the pump step and run functions. -/

theorem readerStep_of_exited (st : StatusType) (s : ReaderState) (i : ReaderInput)
    (h : s.exited = true) : readerStep st s i = s := by
  simp [readerStep, h]

theorem readerRun_of_exited (st : StatusType) (s : ReaderState)
    (l : List ReaderInput) (h : s.exited = true) : readerRun st s l = s := by
  induction l with
  | nil => rfl
  | cons i rest ih => simp [readerRun, readerStep_of_exited st s i h, ih]

theorem readerRun_append (st : StatusType) (s : ReaderState)
    (a b : List ReaderInput) :
    readerRun st s (a ++ b) = readerRun st (readerRun st s a) b := by
  induction a generalizing s with
  | nil => rfl
  | cons i rest ih => simp [readerRun, ih]

theorem writerStep_of_exited (st : StatusType) (s : WriterState) (i : WriterInput)
    (h : s.exited = true) : writerStep st s i = s := by
  simp [writerStep, h]

theorem writerRun_of_exited (st : StatusType) (s : WriterState)
    (l : List WriterInput) (h : s.exited = true) : writerRun st s l = s := by
  induction l with
  | nil => rfl
  | cons i rest ih => simp [writerRun, writerStep_of_exited st s i h, ih]

theorem writerRun_append (st : StatusType) (s : WriterState)
    (a b : List WriterInput) :
    writerRun st s (a ++ b) = writerRun st (writerRun st s a) b := by
  induction a generalizing s with
  | nil => rfl
  | cons i rest ih => simp [writerRun, ih]

theorem readerStep_closed_inv (st : StatusType) (s : ReaderState) (i : ReaderInput)
    (h : s.exited = true → s.inboundClosed = true ∧ s.outboundClosed = true) :
    (readerStep st s i).exited = true →
      (readerStep st s i).inboundClosed = true ∧
      (readerStep st s i).outboundClosed = true := by
  by_cases he : s.exited = true
  · rw [readerStep_of_exited st s i he]
    exact h
  · rcases i with msg | res
    · rcases msg with _ | m
      · simp [readerStep, he]
      · rcases m with _ | _ | id
        · simp [readerStep, he, readerExit]
        · simp [readerStep, he]
        · rcases st with _ | j
          · simp [readerStep, he]
          · by_cases hj : j = id <;> simp [readerStep, he, hj, readerExit]
    · rcases res with _ | f
      · simp [readerStep, he, readerExit]
      · rcases f with _ | p
        · simp [readerStep, he, readerExit]
        · by_cases hc : s.inboundClosed = true <;>
            simp [readerStep, he, hc, readerExit]

theorem readerRun_closed_inv (st : StatusType) (s : ReaderState)
    (l : List ReaderInput)
    (h : s.exited = true → s.inboundClosed = true ∧ s.outboundClosed = true) :
    (readerRun st s l).exited = true →
      (readerRun st s l).inboundClosed = true ∧
      (readerRun st s l).outboundClosed = true := by
  induction l generalizing s with
  | nil => exact h
  | cons i rest ih => exact ih _ (readerStep_closed_inv st s i h)

theorem writerStep_closed_inv (st : StatusType) (s : WriterState) (i : WriterInput)
    (h : s.exited = true → s.outboundClosed = true ∧ s.inboundClosed = true) :
    (writerStep st s i).exited = true →
      (writerStep st s i).outboundClosed = true ∧
      (writerStep st s i).inboundClosed = true := by
  by_cases he : s.exited = true
  · rw [writerStep_of_exited st s i he]
    exact h
  · rcases i with msg | wok
    · rcases msg with _ | m
      · simp [writerStep, he]
      · rcases m with _ | _ | id
        · simp [writerStep, he, writerExit]
        · simp [writerStep, he]
        · rcases st with _ | j
          · simp [writerStep, he]
          · by_cases hj : j = id <;> simp [writerStep, he, hj, writerExit]
    · rcases hq : s.outboundQueue with _ | ⟨f, rest⟩
      · by_cases hc : s.outboundClosed = true <;>
          simp [writerStep, he, hq, hc, writerExit, h]
      · cases wok <;> simp [writerStep, he, hq, writerExit]

theorem writerRun_closed_inv (st : StatusType) (s : WriterState)
    (l : List WriterInput)
    (h : s.exited = true → s.outboundClosed = true ∧ s.inboundClosed = true) :
    (writerRun st s l).exited = true →
      (writerRun st s l).outboundClosed = true ∧
      (writerRun st s l).inboundClosed = true := by
  induction l generalizing s with
  | nil => exact h
  | cons i rest ih => exact ih _ (writerStep_closed_inv st s i h)

/-- C1: mutual-close discipline — whenever the reader loop has exited, it has
closed the inbound queue's sender and the outbound queue's receiver, and
whenever the writer loop has exited, it has closed the outbound queue's
receiver and the inbound queue's sender, over every possible run from the
spawn state. -/
theorem mutual_close_discipline (str stw : StatusType) (lr : List ReaderInput)
    (q : List Nat) (lw : List WriterInput)
    (hr : (readerRun str readerInit lr).exited = true)
    (hw : (writerRun stw (writerInit q) lw).exited = true) :
    ((readerRun str readerInit lr).inboundClosed = true ∧
     (readerRun str readerInit lr).outboundClosed = true) ∧
    ((writerRun stw (writerInit q) lw).outboundClosed = true ∧
     (writerRun stw (writerInit q) lw).inboundClosed = true) := by
  refine ⟨readerRun_closed_inv str readerInit lr ?_ hr,
          writerRun_closed_inv stw (writerInit q) lw ?_ hw⟩
  · intro hx
    simp [readerInit] at hx
  · intro hx
    simp [writerInit] at hx

/-- Witness for C1 at a concrete run: a global shutdown exits both loops. -/
theorem mutual_close_discipline_witness :
    (readerRun (StatusType.Downstream 0) readerInit
        [ReaderInput.shutdown (some ShutdownMessage.ShutdownAll)]).exited = true ∧
    (writerRun (StatusType.Downstream 0) (writerInit [4])
        [WriterInput.shutdown (some ShutdownMessage.ShutdownAll)]).exited = true ∧
    (((readerRun (StatusType.Downstream 0) readerInit
        [ReaderInput.shutdown (some ShutdownMessage.ShutdownAll)]).inboundClosed = true ∧
      (readerRun (StatusType.Downstream 0) readerInit
        [ReaderInput.shutdown (some ShutdownMessage.ShutdownAll)]).outboundClosed = true) ∧
     ((writerRun (StatusType.Downstream 0) (writerInit [4])
        [WriterInput.shutdown (some ShutdownMessage.ShutdownAll)]).outboundClosed = true ∧
      (writerRun (StatusType.Downstream 0) (writerInit [4])
        [WriterInput.shutdown (some ShutdownMessage.ShutdownAll)]).inboundClosed = true)) :=
  ⟨by decide, by decide,
   mutual_close_discipline (StatusType.Downstream 0) (StatusType.Downstream 0)
     [ReaderInput.shutdown (some ShutdownMessage.ShutdownAll)] [4]
     [WriterInput.shutdown (some ShutdownMessage.ShutdownAll)]
     (by decide) (by decide)⟩

/-- C2: the code bug exhibited — a running pump whose identity is Downstream(7)
receives DownstreamShutdownAll and both its loops fall into the catch-all arm:
the state is unchanged, nothing is closed and neither loop exits, contrary to
the documented meaning of the variant (shutdown all downstream connections). -/
theorem downstream_shutdown_all_ignored :
    readerStep (StatusType.Downstream 7) readerInit
        (ReaderInput.shutdown (some ShutdownMessage.DownstreamShutdownAll)) =
      readerInit ∧
    writerStep (StatusType.Downstream 7) (writerInit [])
        (WriterInput.shutdown (some ShutdownMessage.DownstreamShutdownAll)) =
      writerInit [] ∧
    (readerRun (StatusType.Downstream 7) readerInit
        [ReaderInput.shutdown (some ShutdownMessage.DownstreamShutdownAll)]).exited = false ∧
    (writerRun (StatusType.Downstream 7) (writerInit [])
        [WriterInput.shutdown (some ShutdownMessage.DownstreamShutdownAll)]).exited = false := by
  decide

/-- C3: a DownstreamShutdown(id) message makes a running loop close its queue
and exit exactly when its identity is Downstream(id) and not TemplateReceiver;
a loop with any other identity is left completely unchanged by the message. -/
theorem downstream_shutdown_selective (id : Nat) (st : StatusType)
    (s : ReaderState) (w : WriterState)
    (hs : s.exited = false) (hsc : s.inboundClosed = false)
    (hw : w.exited = false) (hwc : w.outboundClosed = false) :
    (((readerStep st s (ReaderInput.shutdown
          (some (ShutdownMessage.DownstreamShutdown id)))).exited = true ∧
      (readerStep st s (ReaderInput.shutdown
          (some (ShutdownMessage.DownstreamShutdown id)))).inboundClosed = true) ↔
        (st = StatusType.Downstream id ∧ st ≠ StatusType.TemplateReceiver)) ∧
    (((writerStep st w (WriterInput.shutdown
          (some (ShutdownMessage.DownstreamShutdown id)))).exited = true ∧
      (writerStep st w (WriterInput.shutdown
          (some (ShutdownMessage.DownstreamShutdown id)))).outboundClosed = true) ↔
        (st = StatusType.Downstream id ∧ st ≠ StatusType.TemplateReceiver)) ∧
    (st ≠ StatusType.Downstream id →
      readerStep st s (ReaderInput.shutdown
        (some (ShutdownMessage.DownstreamShutdown id))) = s ∧
      writerStep st w (WriterInput.shutdown
        (some (ShutdownMessage.DownstreamShutdown id))) = w) := by
  rcases st with _ | j
  · simp [readerStep, writerStep, hs, hsc, hw, hwc]
  · by_cases hj : j = id <;>
      simp [readerStep, writerStep, hs, hsc, hw, hwc, hj, readerExit, writerExit]

/-- Witness for C3 at a concrete input: DownstreamShutdown(7) against a pump
tagged Downstream(7), from the spawn states. -/
theorem downstream_shutdown_selective_witness :
    readerInit.exited = false ∧ readerInit.inboundClosed = false ∧
    (writerInit []).exited = false ∧ (writerInit []).outboundClosed = false ∧
    ((((readerStep (StatusType.Downstream 7) readerInit (ReaderInput.shutdown
          (some (ShutdownMessage.DownstreamShutdown 7)))).exited = true ∧
      (readerStep (StatusType.Downstream 7) readerInit (ReaderInput.shutdown
          (some (ShutdownMessage.DownstreamShutdown 7)))).inboundClosed = true) ↔
        (StatusType.Downstream 7 = StatusType.Downstream 7 ∧
         StatusType.Downstream 7 ≠ StatusType.TemplateReceiver)) ∧
    (((writerStep (StatusType.Downstream 7) (writerInit []) (WriterInput.shutdown
          (some (ShutdownMessage.DownstreamShutdown 7)))).exited = true ∧
      (writerStep (StatusType.Downstream 7) (writerInit []) (WriterInput.shutdown
          (some (ShutdownMessage.DownstreamShutdown 7)))).outboundClosed = true) ↔
        (StatusType.Downstream 7 = StatusType.Downstream 7 ∧
         StatusType.Downstream 7 ≠ StatusType.TemplateReceiver)) ∧
    (StatusType.Downstream 7 ≠ StatusType.Downstream 7 →
      readerStep (StatusType.Downstream 7) readerInit (ReaderInput.shutdown
        (some (ShutdownMessage.DownstreamShutdown 7))) = readerInit ∧
      writerStep (StatusType.Downstream 7) (writerInit []) (WriterInput.shutdown
        (some (ShutdownMessage.DownstreamShutdown 7))) = writerInit [])) :=
  ⟨rfl, rfl, rfl, rfl,
   downstream_shutdown_selective 7 (StatusType.Downstream 7) readerInit
     (writerInit []) rfl rfl rfl rfl⟩

theorem readerStep_shutdown_exits (st : StatusType) (msg : ShutdownMessage)
    (s : ReaderState) (h : appliesTo st msg = true) :
    (readerStep st s (ReaderInput.shutdown (some msg))).exited = true := by
  by_cases he : s.exited = true
  · rw [readerStep_of_exited st s _ he]
    exact he
  · rcases msg with _ | _ | id
    · simp [readerStep, he, readerExit]
    · simp [appliesTo] at h
    · simp [appliesTo] at h
      subst h
      simp [readerStep, he, readerExit]

theorem writerStep_shutdown_exits (st : StatusType) (msg : ShutdownMessage)
    (s : WriterState) (h : appliesTo st msg = true) :
    (writerStep st s (WriterInput.shutdown (some msg))).exited = true := by
  by_cases he : s.exited = true
  · rw [writerStep_of_exited st s _ he]
    exact he
  · rcases msg with _ | _ | id
    · simp [writerStep, he, writerExit]
    · simp [appliesTo] at h
    · simp [appliesTo] at h
      subst h
      simp [writerStep, he, writerExit]

/-- C4: once a loop has acted on an applicable shutdown message (ShutdownAll,
or a DownstreamShutdown matching its identity), it forwards nothing more in
every subsequent step: the reader's inbound deliveries and the writer's
transport writes after any further inputs equal those at the moment the
shutdown was handled. -/
theorem no_forward_after_shutdown (st : StatusType) (msg : ShutdownMessage)
    (pre post : List ReaderInput) (wpre wpost : List WriterInput)
    (q : List Nat) (h : appliesTo st msg = true) :
    (readerRun st readerInit
        (pre ++ ReaderInput.shutdown (some msg) :: post)).inbound =
      (readerRun st readerInit
        (pre ++ [ReaderInput.shutdown (some msg)])).inbound ∧
    (writerRun st (writerInit q)
        (wpre ++ WriterInput.shutdown (some msg) :: wpost)).written =
      (writerRun st (writerInit q)
        (wpre ++ [WriterInput.shutdown (some msg)])).written := by
  constructor
  · have key : readerRun st readerInit
        (pre ++ ReaderInput.shutdown (some msg) :: post) =
        readerRun st readerInit (pre ++ [ReaderInput.shutdown (some msg)]) := by
      have h1 : pre ++ ReaderInput.shutdown (some msg) :: post =
          (pre ++ [ReaderInput.shutdown (some msg)]) ++ post := by
        simp
      rw [h1, readerRun_append]
      apply readerRun_of_exited
      rw [readerRun_append]
      exact readerStep_shutdown_exits st msg _ h
    rw [key]
  · have key : writerRun st (writerInit q)
        (wpre ++ WriterInput.shutdown (some msg) :: wpost) =
        writerRun st (writerInit q) (wpre ++ [WriterInput.shutdown (some msg)]) := by
      have h1 : wpre ++ WriterInput.shutdown (some msg) :: wpost =
          (wpre ++ [WriterInput.shutdown (some msg)]) ++ wpost := by
        simp
      rw [h1, writerRun_append]
      apply writerRun_of_exited
      rw [writerRun_append]
      exact writerStep_shutdown_exits st msg _ h
    rw [key]

/-- Witness for C4 at a concrete run: a Downstream(3) pump, frames before and
after a global shutdown; only the frames before it are delivered or written. -/
theorem no_forward_after_shutdown_witness :
    appliesTo (StatusType.Downstream 3) ShutdownMessage.ShutdownAll = true ∧
    ((readerRun (StatusType.Downstream 3) readerInit
        ([ReaderInput.transport (some (Frame.Sv2 1))] ++
          ReaderInput.shutdown (some ShutdownMessage.ShutdownAll) ::
            [ReaderInput.transport (some (Frame.Sv2 2))])).inbound =
      (readerRun (StatusType.Downstream 3) readerInit
        ([ReaderInput.transport (some (Frame.Sv2 1))] ++
          [ReaderInput.shutdown (some ShutdownMessage.ShutdownAll)])).inbound ∧
    (writerRun (StatusType.Downstream 3) (writerInit [5, 6])
        ([WriterInput.recv true] ++
          WriterInput.shutdown (some ShutdownMessage.ShutdownAll) ::
            [WriterInput.recv true])).written =
      (writerRun (StatusType.Downstream 3) (writerInit [5, 6])
        ([WriterInput.recv true] ++
          [WriterInput.shutdown (some ShutdownMessage.ShutdownAll)])).written) :=
  ⟨by decide,
   no_forward_after_shutdown (StatusType.Downstream 3) ShutdownMessage.ShutdownAll
     [ReaderInput.transport (some (Frame.Sv2 1))]
     [ReaderInput.transport (some (Frame.Sv2 2))]
     [WriterInput.recv true] [WriterInput.recv true] [5, 6] (by decide)⟩

theorem readerRun_forwards_frames (st : StatusType) (frames acc : List Nat)
    (b : Bool) :
    readerRun st
      { inboundClosed := false, inbound := acc, outboundClosed := b,
        exited := false }
      (frames.map fun f => ReaderInput.transport (some (Frame.Sv2 f))) =
    { inboundClosed := false, inbound := acc ++ frames, outboundClosed := b,
      exited := false } := by
  induction frames generalizing acc with
  | nil => simp [readerRun]
  | cons f rest ih =>
    simp only [List.map_cons, readerRun, readerStep]
    simpa using ih (acc ++ [f])

/-- C5: a Handshake frame read mid-stream makes the reader loop exit without
forwarding it; every Protocol frame forwarded before it stays delivered and no
input after it is forwarded, whatever comes after. -/
theorem handshake_frame_terminates_reader (st : StatusType)
    (frames : List Nat) (post : List ReaderInput) :
    (readerRun st readerInit
        ((frames.map fun f => ReaderInput.transport (some (Frame.Sv2 f))) ++
          ReaderInput.transport (some Frame.HandShake) :: post)).inbound =
      frames ∧
    (readerRun st readerInit
        ((frames.map fun f => ReaderInput.transport (some (Frame.Sv2 f))) ++
          ReaderInput.transport (some Frame.HandShake) :: post)).exited =
      true := by
  have hpre : readerRun st readerInit
      (frames.map fun f => ReaderInput.transport (some (Frame.Sv2 f))) =
      { inboundClosed := false, inbound := frames, outboundClosed := false,
        exited := false } := by
    simpa [readerInit] using readerRun_forwards_frames st frames [] false
  rw [readerRun_append, hpre]
  show (readerRun st (readerStep st _ _) post).inbound = frames ∧
    (readerRun st (readerStep st _ _) post).exited = true
  rw [show readerStep st
      { inboundClosed := false, inbound := frames, outboundClosed := false,
        exited := false }
      (ReaderInput.transport (some Frame.HandShake)) =
      { inboundClosed := true, inbound := frames, outboundClosed := true,
        exited := true } from rfl]
  rw [readerRun_of_exited st _ post rfl]
  exact ⟨rfl, rfl⟩

/-- C8: FIFO preservation in the reader direction — for every sequence of K
Protocol frames yielded in order by the transport with no interleaved error,
handshake frame or shutdown, the reader forwards exactly those frames, in the
same order, into the inbound queue (K = 0 included). -/
theorem reader_fifo_preserved (st : StatusType) (frames : List Nat) :
    (readerRun st readerInit
        (frames.map fun f => ReaderInput.transport (some (Frame.Sv2 f)))).inbound =
      frames := by
  simpa [readerInit] using
    congrArg ReaderState.inbound (readerRun_forwards_frames st frames [] false)

/-- C9: FileBackend's persist_event, flush and shutdown are infallible from the
caller's perspective: each always returns, and when the channel is full or
closed the command is dropped (channel unchanged) and an error is logged, while
otherwise the command is enqueued with no error. -/
theorem file_backend_persist_never_fails (b : FileBackend)
    (event : PersistenceEvent) :
    ((b.sender.closed = true ∨ b.sender.cap ≤ b.sender.buf.length) →
      ((b.persist_event event).1 = b ∧ (b.persist_event event).2 = true ∧
       (b.flush).1 = b ∧ (b.flush).2 = true ∧
       (b.shutdown).1 = b ∧ (b.shutdown).2 = true)) ∧
    ((b.sender.closed = false ∧ b.sender.buf.length < b.sender.cap) →
      ((b.persist_event event).1.sender.buf =
          b.sender.buf ++ [FileCommand.Write event] ∧
       (b.persist_event event).2 = false ∧
       (b.flush).1.sender.buf = b.sender.buf ++ [FileCommand.Flush] ∧
       (b.flush).2 = false ∧
       (b.shutdown).1.sender.buf = b.sender.buf ++ [FileCommand.Shutdown] ∧
       (b.shutdown).2 = false)) := by
  constructor
  · rintro (hc | hf)
    · simp [FileBackend.persist_event, FileBackend.flush, FileBackend.shutdown,
        FileChan.trySend, hc]
    · simp [FileBackend.persist_event, FileBackend.flush, FileBackend.shutdown,
        FileChan.trySend, hf]
  · rintro ⟨hc, hf⟩
    simp [FileBackend.persist_event, FileBackend.flush, FileBackend.shutdown,
      FileChan.trySend, hc, Nat.not_le.mpr hf]

/-- Witness for C9 at concrete channels: a full channel drops and logs, an open
channel with room enqueues. -/
theorem file_backend_persist_never_fails_witness :
    ((FileBackend.mk (FileChan.mk 0 [] false)).sender.closed = true ∨
      (FileBackend.mk (FileChan.mk 0 [] false)).sender.cap ≤
        (FileBackend.mk (FileChan.mk 0 [] false)).sender.buf.length) ∧
    (((FileBackend.mk (FileChan.mk 0 [] false)).persist_event
        (PersistenceEvent.Share 9)).1 = FileBackend.mk (FileChan.mk 0 [] false) ∧
     ((FileBackend.mk (FileChan.mk 0 [] false)).persist_event
        (PersistenceEvent.Share 9)).2 = true) ∧
    ((FileBackend.mk (FileChan.mk 2 [] false)).sender.closed = false ∧
      (FileBackend.mk (FileChan.mk 2 [] false)).sender.buf.length <
        (FileBackend.mk (FileChan.mk 2 [] false)).sender.cap) ∧
    (((FileBackend.mk (FileChan.mk 2 [] false)).persist_event
        (PersistenceEvent.Share 9)).1.sender.buf =
      [FileCommand.Write (PersistenceEvent.Share 9)]) :=
  ⟨Or.inr (by decide),
   ⟨((file_backend_persist_never_fails (FileBackend.mk (FileChan.mk 0 [] false))
        (PersistenceEvent.Share 9)).1 (Or.inr (by decide))).1,
    (((file_backend_persist_never_fails (FileBackend.mk (FileChan.mk 0 [] false))
        (PersistenceEvent.Share 9)).1 (Or.inr (by decide))).2).1⟩,
   ⟨rfl, by decide⟩,
   by
     have := ((file_backend_persist_never_fails
       (FileBackend.mk (FileChan.mk 2 [] false)) (PersistenceEvent.Share 9)).2
         ⟨rfl, by decide⟩).1
     simpa using this⟩

/-- C10: Persistence.persist hands the event to the backend's persist_event
exactly when the event's entity type is contained in enabled_entities, leaving
the backend untouched otherwise; Persistence.noop has an empty enabled set, so
persist on it never reaches any backend for any event. -/
theorem persist_gated_by_enabled_entities (p : Persistence)
    (event : PersistenceEvent) :
    ((p.persist event).2 = [event] ↔
      p.enabled_entities.contains
        (match event with | PersistenceEvent.Share _ => EntityType.Share) = true) ∧
    (p.enabled_entities.contains
        (match event with | PersistenceEvent.Share _ => EntityType.Share) = false →
      (p.persist event).1 = p.backend ∧ (p.persist event).2 = []) ∧
    Persistence.noop.enabled_entities = [] ∧
    (Persistence.noop.persist event).2 = [] := by
  rcases event with d
  by_cases hm : EntityType.Share ∈ p.enabled_entities
  · rcases hb : p.backend with fb | _ <;>
      simp [Persistence.persist, Persistence.noop, hm, hb, List.elem_iff]
  · simp [Persistence.persist, Persistence.noop, hm, List.elem_iff]

/-- Witness for C10 at a concrete instance: with Share enabled the backend is
invoked on the event. -/
theorem persist_gated_by_enabled_entities_witness :
    (Persistence.mk Backend.NoOp [EntityType.Share]).enabled_entities.contains
        EntityType.Share = true ∧
    ((Persistence.mk Backend.NoOp [EntityType.Share]).persist
        (PersistenceEvent.Share 5)).2 = [PersistenceEvent.Share 5] :=
  ⟨by decide,
   (persist_gated_by_enabled_entities
       (Persistence.mk Backend.NoOp [EntityType.Share])
       (PersistenceEvent.Share 5)).1.mpr (by decide)⟩

end Sv2Apps
